import Mathlib

/-!
Verification of the GitLab issues exporter (src/main.py): the paginated
fetch loop `fetch_issues`, the record transformation and spreadsheet
rendering of `export_to_excel`, and the duration formatter
`format_time_seconds`, shallowly embedded in Lean.
-/

namespace GitlabIssuesExport

/-- Outcome of one page request in the fetch loop of `fetch_issues`
(src/main.py lines 56-72).  `ok records` is a successful 2xx response whose
JSON body decoded to `records`; `failed` is any
`requests.exceptions.RequestException` (network error, or the non-2xx status
raised by `response.raise_for_status()`). -/
inductive PageResponse (α : Type) where
  | ok (records : List α)
  | failed
deriving Repr, DecidableEq

/-- The `while True` loop of `fetch_issues` (src/main.py lines 56-73),
driven by the sequence of responses the server gives to pages 1, 2, 3, ...
`acc` is `all_issues`.  An exception returns `[]`; an empty page breaks the
loop returning the accumulator; a non-empty page is appended
(`all_issues.extend(issues)`) and the next page is requested.  `none` means
the response sequence was exhausted with the loop still running (the Python
loop would keep issuing requests). -/
def fetch_issues_loop {α : Type} : List (PageResponse α) → List α → Option (List α)
  | [], _ => none
  | PageResponse.failed :: _, _ => some []
  | PageResponse.ok [] :: _, acc => some acc
  | PageResponse.ok (r :: rs) :: rest, acc => fetch_issues_loop rest (acc ++ (r :: rs))

/-- The function `fetch_issues` (src/main.py lines 38-74): run the loop starting from
`all_issues = []`. -/
def fetch_issues {α : Type} (responses : List (PageResponse α)) : Option (List α) :=
  fetch_issues_loop responses []

/-- The function `format_time_seconds` (src/main.py lines 154-168). -/
def format_time_seconds (seconds : Nat) : String :=
  if seconds = 0 then "0"
  else
    let hours := seconds / 3600
    let minutes := (seconds % 3600) / 60
    let remaining_seconds := seconds % 60
    if hours > 0 then
      Nat.repr hours ++ "h " ++ Nat.repr minutes ++ "m " ++ Nat.repr remaining_seconds ++ "s"
    else if minutes > 0 then
      Nat.repr minutes ++ "m " ++ Nat.repr remaining_seconds ++ "s"
    else
      Nat.repr remaining_seconds ++ "s"

/-- An element of the `assignees` array of an issue payload.  The code
reads `assignee['name']` (src/main.py line 109), which raises `KeyError`
when the key is absent, so the name is modelled optional. -/
structure Assignee where
  name : Option String
deriving Repr, DecidableEq

/-- The `time_stats` sub-object (src/main.py lines 118-120); both
sub-fields are read with `.get(..., 0)`, so each is optional. -/
structure TimeStats where
  time_estimate : Option Nat
  total_time_spent : Option Nat
deriving Repr, DecidableEq

/-- The `author` sub-object; `issue['author']['name']` (src/main.py line
126) raises `KeyError` when `name` is absent. -/
structure Author where
  name : Option String
deriving Repr, DecidableEq

/-- The calendar components carried by the aware datetime that
`dateutil.parser.parse` returns for a parseable `created_at` string
(src/main.py line 115).  `offsetMinutes` is the string's own encoded UTC
offset; `strftime` never consults it. -/
structure DateTime where
  year : Nat
  month : Nat
  day : Nat
  hour : Nat
  minute : Nat
  second : Nat
  offsetMinutes : Int
deriving Repr, DecidableEq

/-- One raw issue object as decoded from a page's JSON.  A key read with
`issue[...]` is modelled as an `Option` whose `none` raises; a key read
with `issue.get(...)` defaults.  `created_at` is `none` when the key is
absent, `some none` when present but unparseable by `dateutil`, and
`some (some dt)` when it parses to the datetime `dt`. -/
structure RawIssue where
  iid : Option Int
  title : Option String
  description : Option String
  author : Option Author
  state : Option String
  assignees : Option (List Assignee)
  labels : Option (List String)
  created_at : Option (Option DateTime)
  time_stats : Option TimeStats
deriving Repr, DecidableEq

/-- The uncaught exceptions that can escape the per-record transformation
in `export_to_excel` (src/main.py lines 107-133): a `KeyError` on a
required key, or a `dateutil` parse error on `created_at`. -/
inductive MalformedRecordError where
  | missingField (field : String)
  | unparseableTimestamp
deriving Repr, DecidableEq

/-- A spreadsheet cell value: `iid` is written as an integer, every other
column as text. -/
inductive CellValue where
  | int (n : Int)
  | str (s : String)
deriving Repr, DecidableEq

/-- The rendering `str(cell.value)` used for column sizing (src/main.py line 144). -/
def cellStr : CellValue → String
  | CellValue.int n => Int.repr n
  | CellValue.str s => s

/-- The list comprehension `[assignee['name'] for assignee in ...]`
(src/main.py line 109): each element's `name` key is read, raising
`KeyError` when absent. -/
def assigneeNames : List Assignee → Except MalformedRecordError (List String)
  | [] => Except.ok []
  | a :: rest =>
    match a.name with
    | none => Except.error (MalformedRecordError.missingField "name")
    | some n =>
      match assigneeNames rest with
      | Except.error e => Except.error e
      | Except.ok ns => Except.ok (n :: ns)

/-- Zero-pad the decimal representation of `n` to width `w`, as Python's
`strftime` does for each field of the format string. -/
def zeroPad (w : Nat) (n : Nat) : String :=
  String.mk (List.replicate (w - (Nat.repr n).length) '0') ++ Nat.repr n

/-- The strftime call rendering the parsed datetime (src/main.py
line 115): renders the datetime's own wall-clock components, ignoring its
encoded offset (no timezone conversion). -/
def strftime (dt : DateTime) : String :=
  zeroPad 4 dt.year ++ "-" ++ zeroPad 2 dt.month ++ "-" ++ zeroPad 2 dt.day ++ " " ++
    zeroPad 2 dt.hour ++ ":" ++ zeroPad 2 dt.minute ++ ":" ++ zeroPad 2 dt.second

/-- The `data` list literal (src/main.py lines 122-133) once every
fallible read has succeeded: `iid`, `title`, the defaulted `description`,
the author name, `state`, the two comma joins, the re-rendered creation
timestamp, and the two formatted durations. -/
def reportRowOf (issue : RawIssue) (names : List String) (dt : DateTime)
    (iid : Int) (title authorName st : String) : List CellValue :=
  [CellValue.int iid, CellValue.str title,
   CellValue.str (issue.description.getD ""),
   CellValue.str authorName, CellValue.str st,
   CellValue.str (String.intercalate ", " names),
   CellValue.str (String.intercalate ", " (issue.labels.getD [])),
   CellValue.str (strftime dt),
   CellValue.str (format_time_seconds
     ((issue.time_stats.getD ⟨none, none⟩).time_estimate.getD 0)),
   CellValue.str (format_time_seconds
     ((issue.time_stats.getD ⟨none, none⟩).total_time_spent.getD 0))]

/-- The per-record body of the data loop in `export_to_excel` (src/main.py
lines 107-133), producing the 10-element `data` list for one issue.  The
fallible reads occur in source order: assignee names (line 109), the
`created_at` parse (line 115), then `iid`, `title`, `author['name']` and
`state` inside the `data` literal (lines 122-133).  `labels`,
`description` and `time_stats` are read with defaulting `.get`. -/
def transform_issue (issue : RawIssue) : Except MalformedRecordError (List CellValue) :=
  match assigneeNames (issue.assignees.getD []) with
  | Except.error e => Except.error e
  | Except.ok names =>
    match issue.created_at with
    | none => Except.error (MalformedRecordError.missingField "created_at")
    | some none => Except.error MalformedRecordError.unparseableTimestamp
    | some (some dt) =>
      match issue.iid with
      | none => Except.error (MalformedRecordError.missingField "iid")
      | some iid =>
        match issue.title with
        | none => Except.error (MalformedRecordError.missingField "title")
        | some title =>
          match issue.author with
          | none => Except.error (MalformedRecordError.missingField "author")
          | some author =>
            match author.name with
            | none => Except.error (MalformedRecordError.missingField "name")
            | some authorName =>
              match issue.state with
              | none => Except.error (MalformedRecordError.missingField "state")
              | some st =>
                Except.ok (reportRowOf issue names dt iid title authorName st)

/-- The header labels written to row 1 (src/main.py lines 87-98),
preserved verbatim. -/
def REPORT_HEADERS : List String :=
  ["ID del issue",
   "Título del issue",
   "Descripción del issue",
   "Nombre del autor",
   "Estado del issue",
   "Asignados al issue",
   "Etiquetas del issue",
   "Fecha y hora de creación",
   "Tiempo total estimado",
   "Tiempo total gastado"]

/-- The data loop of `export_to_excel` (src/main.py lines 107-136): rows
are transformed and written in input order; the first uncaught exception
aborts the whole export before `wb.save` runs. -/
def transform_all : List RawIssue → Except MalformedRecordError (List (List CellValue))
  | [] => Except.ok []
  | i :: rest =>
    match transform_issue i with
    | Except.error e => Except.error e
    | Except.ok row =>
      match transform_all rest with
      | Except.error e => Except.error e
      | Except.ok rows => Except.ok (row :: rows)

/-- The cells of column `j` as the width loop sees them (src/main.py lines
139-147): the header cell of row 1 followed by the data cells in row
order, each rendered with `str`. -/
def columnCells (header : String) (rows : List (List CellValue)) (j : Nat) : List String :=
  header :: rows.map (fun row => cellStr (row.getD j (CellValue.str "")))

/-- The width computation for one column (src/main.py lines 140-148):
`max_length` starts at 0 and is raised to each cell's rendered length;
the stored width is `min(max_length + 2, 50)`. -/
def column_width (cells : List String) : Nat :=
  Nat.min ((cells.foldl (fun m s => Nat.max m s.length) 0) + 2) 50

/-- The produced workbook state at `wb.save` (src/main.py lines 82-151):
sheet title, the header row, the data rows in order, and the per-column
display widths. -/
structure Sheet where
  title : String
  header : List String
  rows : List (List CellValue)
  widths : List Nat
deriving Repr, DecidableEq

/-- The function `export_to_excel` (src/main.py lines 76-152) restricted to its
persisted output: transform every issue in order (any exception aborts the
export with no saved file), then compute the column widths over header and
data cells. -/
def export_to_excel (issues : List RawIssue) : Except MalformedRecordError Sheet :=
  match transform_all issues with
  | Except.error e => Except.error e
  | Except.ok rows =>
    Except.ok
      { title := "GitLab Issues",
        header := REPORT_HEADERS,
        rows := rows,
        widths := (List.range REPORT_HEADERS.length).map
          (fun j => column_width (columnCells (REPORT_HEADERS.getD j "") rows j)) }

/- ### Concrete sample data used to exercise the theorems -/

def sampleDT : DateTime := ⟨2024, 1, 15, 10, 30, 0, 0⟩

def sampleIssue : RawIssue :=
  { iid := some 7, title := some "Fix crash", description := some "Crash on load",
    author := some ⟨some "Dana"⟩, state := some "opened",
    assignees := some [⟨some "Ana"⟩, ⟨some "Luis"⟩], labels := some ["bug", "ui"],
    created_at := some (some sampleDT), time_stats := some ⟨some 5400, some 0⟩ }

def sampleRow : List CellValue :=
  [CellValue.int 7, CellValue.str "Fix crash", CellValue.str "Crash on load",
   CellValue.str "Dana", CellValue.str "opened", CellValue.str "Ana, Luis",
   CellValue.str "bug, ui", CellValue.str "2024-01-15 10:30:00",
   CellValue.str "1h 30m 0s", CellValue.str "0"]

/-- A record with every required field but none of the optional ones. -/
def bareIssue : RawIssue :=
  { iid := some 3, title := some "T", description := none,
    author := some ⟨some "Bo"⟩, state := some "closed",
    assignees := none, labels := none,
    created_at := some (some sampleDT), time_stats := none }

def bareRow : List CellValue :=
  [CellValue.int 3, CellValue.str "T", CellValue.str "",
   CellValue.str "Bo", CellValue.str "closed", CellValue.str "",
   CellValue.str "", CellValue.str "2024-01-15 10:30:00",
   CellValue.str "0", CellValue.str "0"]

/-- A record whose required `iid` key is absent. -/
def noIidIssue : RawIssue :=
  { iid := none, title := some "T", description := some "d",
    author := some ⟨some "Bo"⟩, state := some "opened",
    assignees := some [], labels := some [],
    created_at := some (some sampleDT), time_stats := some ⟨some 0, some 0⟩ }

/-- The sheet produced for an empty issue list: header row only, widths
derived from the header labels alone. -/
def emptySheet : Sheet :=
  { title := "GitLab Issues", header := REPORT_HEADERS, rows := [],
    widths := [14, 18, 23, 18, 18, 20, 21, 26, 23, 22] }

/- ## Pagination lemmas -/

theorem fetch_issues_loop_ok_pages {α : Type} (pre : List (List α))
    (rest : List (PageResponse α)) (acc : List α) (h : ∀ l ∈ pre, l ≠ []) :
    fetch_issues_loop (pre.map PageResponse.ok ++ rest) acc =
      fetch_issues_loop rest (acc ++ pre.flatten) := by
  induction pre generalizing acc with
  | nil => simp
  | cons hd tl ih =>
    cases hd with
    | nil => exact absurd rfl (h [] (by simp))
    | cons x xs =>
      have htl : ∀ l ∈ tl, l ≠ [] := fun l hl => h l (List.mem_cons_of_mem _ hl)
      simp only [List.map_cons, List.cons_append, fetch_issues_loop, List.append_eq,
        ih _ htl, List.flatten_cons, List.append_assoc]

/-- C1: a response sequence made of successful non-empty pages followed by
an empty page terminates the loop at that empty page, returning the
concatenation of the preceding pages in request order; the responses after
the empty page are never consumed. -/
theorem fetch_issues_stops_at_first_empty_page {α : Type} (pre : List (List α))
    (rest : List (PageResponse α)) (h : ∀ l ∈ pre, l ≠ []) :
    fetch_issues (pre.map PageResponse.ok ++ PageResponse.ok [] :: rest) =
        some pre.flatten ∧
      fetch_issues (pre.map PageResponse.ok ++ PageResponse.ok [] :: rest) =
        fetch_issues (pre.map PageResponse.ok ++ [PageResponse.ok []]) := by
  constructor
  · unfold fetch_issues
    rw [fetch_issues_loop_ok_pages pre _ [] h]
    simp [fetch_issues_loop]
  · unfold fetch_issues
    rw [fetch_issues_loop_ok_pages pre _ [] h, fetch_issues_loop_ok_pages pre _ [] h]
    simp [fetch_issues_loop]

theorem fetch_issues_stops_witness :
    (∀ l ∈ [[1, 2], [3]], l ≠ ([] : List Nat)) ∧
      fetch_issues ([[1, 2], [3]].map PageResponse.ok ++
          PageResponse.ok [] :: [PageResponse.ok [9]]) = some [1, 2, 3] :=
  ⟨by decide, by
    have h := fetch_issues_stops_at_first_empty_page [[1, 2], [3]]
      [PageResponse.ok [9]] (by decide)
    simpa using h.1⟩

/-- C2: if some page request fails after a run of successful non-empty
pages, the loop aborts there — the responses after the failure are never
consumed — and the whole fetch returns the empty list, discarding the
records accumulated from the earlier pages. -/
theorem fetch_issues_failure_discards_records {α : Type} (pre : List (List α))
    (rest : List (PageResponse α)) (h : ∀ l ∈ pre, l ≠ []) :
    fetch_issues (pre.map PageResponse.ok ++ PageResponse.failed :: rest) =
        some [] ∧
      fetch_issues (pre.map PageResponse.ok ++ PageResponse.failed :: rest) =
        fetch_issues (pre.map PageResponse.ok ++ [PageResponse.failed]) := by
  constructor
  · unfold fetch_issues
    rw [fetch_issues_loop_ok_pages pre _ [] h]
    simp [fetch_issues_loop]
  · unfold fetch_issues
    rw [fetch_issues_loop_ok_pages pre _ [] h, fetch_issues_loop_ok_pages pre _ [] h]
    simp [fetch_issues_loop]

theorem fetch_issues_failure_witness :
    (∀ l ∈ [[1, 2], [3]], l ≠ ([] : List Nat)) ∧
      fetch_issues ([[1, 2], [3]].map PageResponse.ok ++
          PageResponse.failed :: [PageResponse.ok [9]]) = some [] :=
  ⟨by decide, by
    have h := fetch_issues_failure_discards_records [[1, 2], [3]]
      [PageResponse.ok [9]] (by decide)
    simpa using h.1⟩

/- ## Duration formatter -/

/-- C6: the duration formatter returns "0" on zero, and otherwise renders
hours, minutes and remaining seconds exactly as the source's three-way
branch does; with the stated boundary cases. -/
theorem format_time_seconds_spec (s : Nat) :
    format_time_seconds s =
        (if s = 0 then "0"
         else if s / 3600 > 0 then
           Nat.repr (s / 3600) ++ "h " ++ Nat.repr (s % 3600 / 60) ++ "m " ++
             Nat.repr (s % 60) ++ "s"
         else if s % 3600 / 60 > 0 then
           Nat.repr (s % 3600 / 60) ++ "m " ++ Nat.repr (s % 60) ++ "s"
         else Nat.repr (s % 60) ++ "s") ∧
      format_time_seconds 59 = "59s" ∧ format_time_seconds 60 = "1m 0s" ∧
      format_time_seconds 3599 = "59m 59s" ∧ format_time_seconds 3600 = "1h 0m 0s" := by
  refine ⟨rfl, ?_, ?_, ?_, ?_⟩ <;> decide

/- ## Record transformation lemmas -/

theorem transform_issue_ok_shape (issue : RawIssue) (row : List CellValue)
    (h : transform_issue issue = Except.ok row) :
    ∃ names dt iid title author authorName st,
      assigneeNames (issue.assignees.getD []) = Except.ok names ∧
      issue.created_at = some (some dt) ∧
      issue.iid = some iid ∧
      issue.title = some title ∧
      issue.author = some author ∧
      author.name = some authorName ∧
      issue.state = some st ∧
      row = reportRowOf issue names dt iid title authorName st := by
  cases hA : assigneeNames (issue.assignees.getD []) with
  | error e => simp [transform_issue, hA] at h
  | ok names =>
    cases hC : issue.created_at with
    | none => simp [transform_issue, hA, hC] at h
    | some odt =>
      cases odt with
      | none => simp [transform_issue, hA, hC] at h
      | some dt =>
        cases hI : issue.iid with
        | none => simp [transform_issue, hA, hC, hI] at h
        | some iid =>
          cases hT : issue.title with
          | none => simp [transform_issue, hA, hC, hI, hT] at h
          | some title =>
            cases hAu : issue.author with
            | none => simp [transform_issue, hA, hC, hI, hT, hAu] at h
            | some author =>
              cases hAN : author.name with
              | none => simp [transform_issue, hA, hC, hI, hT, hAu, hAN] at h
              | some authorName =>
                cases hS : issue.state with
                | none => simp [transform_issue, hA, hC, hI, hT, hAu, hAN, hS] at h
                | some st =>
                  simp only [transform_issue, hA, hC, hI, hT, hAu, hAN, hS,
                    Except.ok.injEq] at h
                  exact ⟨names, dt, iid, title, author, authorName, st,
                    rfl, rfl, rfl, rfl, rfl, hAN, rfl, h.symm⟩

theorem transform_issue_ok_of_fields (issue : RawIssue) (names : List String)
    (dt : DateTime) (iid : Int) (title authorName st : String) (author : Author)
    (hA : assigneeNames (issue.assignees.getD []) = Except.ok names)
    (hC : issue.created_at = some (some dt))
    (hI : issue.iid = some iid) (hT : issue.title = some title)
    (hAu : issue.author = some author) (hAN : author.name = some authorName)
    (hS : issue.state = some st) :
    transform_issue issue = Except.ok (reportRowOf issue names dt iid title authorName st) := by
  simp [transform_issue, hA, hC, hI, hT, hAu, hAN, hS]

theorem transform_all_spec (issues : List RawIssue) (rows : List (List CellValue))
    (h : transform_all issues = Except.ok rows) :
    rows.length = issues.length ∧
      ∀ (k : Nat) (i : RawIssue), issues[k]? = some i →
        ∃ r, rows[k]? = some r ∧ transform_issue i = Except.ok r := by
  induction issues generalizing rows with
  | nil =>
    simp only [transform_all, Except.ok.injEq] at h
    subst h
    simp
  | cons i t ih =>
    cases hi : transform_issue i with
    | error e => simp [transform_all, hi] at h
    | ok row =>
      cases ht : transform_all t with
      | error e => simp [transform_all, hi, ht] at h
      | ok rs =>
        simp only [transform_all, hi, ht, Except.ok.injEq] at h
        subst h
        obtain ⟨hlen, hget⟩ := ih rs ht
        refine ⟨by simp [hlen], ?_⟩
        intro k j hk
        cases k with
        | zero =>
          simp only [List.getElem?_cons_zero, Option.some.injEq] at hk
          subst hk
          exact ⟨row, by simp, hi⟩
        | succ k =>
          simp only [List.getElem?_cons_succ] at hk ⊢
          exact hget k j hk

/-- C3: when every issue record transforms successfully, the produced
document has the 10 header labels as row 1 and, below it, exactly one data
row per input record, in input order, each being that record's transformed
Report Row. -/
theorem export_to_excel_row_invariant (issues : List RawIssue)
    (rows : List (List CellValue)) (h : transform_all issues = Except.ok rows) :
    ∃ s, export_to_excel issues = Except.ok s ∧
      s.header = REPORT_HEADERS ∧ REPORT_HEADERS.length = 10 ∧
      s.rows = rows ∧ s.rows.length = issues.length ∧
      ∀ (k : Nat) (i : RawIssue), issues[k]? = some i →
        ∃ r, s.rows[k]? = some r ∧ transform_issue i = Except.ok r := by
  obtain ⟨hlen, hget⟩ := transform_all_spec issues rows h
  have he : export_to_excel issues = Except.ok
      { title := "GitLab Issues", header := REPORT_HEADERS, rows := rows,
        widths := (List.range REPORT_HEADERS.length).map
          (fun j => column_width (columnCells (REPORT_HEADERS.getD j "") rows j)) } := by
    simp [export_to_excel, h]
  exact ⟨_, he, rfl, rfl, rfl, hlen, hget⟩

theorem export_to_excel_row_invariant_witness :
    transform_all [sampleIssue] = Except.ok [sampleRow] ∧
      (∃ s, export_to_excel [sampleIssue] = Except.ok s ∧
        s.header = REPORT_HEADERS ∧ REPORT_HEADERS.length = 10 ∧
        s.rows = [sampleRow] ∧ s.rows.length = [sampleIssue].length ∧
        ∀ (k : Nat) (i : RawIssue), [sampleIssue][k]? = some i →
          ∃ r, s.rows[k]? = some r ∧ transform_issue i = Except.ok r) :=
  ⟨by rfl, export_to_excel_row_invariant [sampleIssue] [sampleRow] (by rfl)⟩

theorem assigneeNames_of_named (ns : List String) :
    assigneeNames (ns.map (fun n => ⟨some n⟩)) = Except.ok ns := by
  induction ns with
  | nil => rfl
  | cons n t ih => simp [assigneeNames, ih]

/-- C4: the transformation joins assignee names and label tags with a
comma-space in the order the API supplied them, and a record lacking the
`assignees` list, the `labels` list, the `time_stats` object or its
`time_estimate` or `total_time_spent` sub-fields gets the empty string for
the respective join and "0" for the respective formatted duration. -/
theorem transform_issue_joins_and_defaults (issue : RawIssue) (row : List CellValue)
    (h : transform_issue issue = Except.ok row) :
    (∀ ns : List String, issue.assignees = some (ns.map (fun n => ⟨some n⟩)) →
        row[5]? = some (CellValue.str (String.intercalate ", " ns))) ∧
    (∀ ls : List String, issue.labels = some ls →
        row[6]? = some (CellValue.str (String.intercalate ", " ls))) ∧
    (issue.assignees = none → row[5]? = some (CellValue.str "")) ∧
    (issue.labels = none → row[6]? = some (CellValue.str "")) ∧
    (issue.time_stats = none →
        row[8]? = some (CellValue.str "0") ∧ row[9]? = some (CellValue.str "0")) ∧
    (∀ ts : TimeStats, issue.time_stats = some ts →
        (ts.time_estimate = none → row[8]? = some (CellValue.str "0")) ∧
        (ts.total_time_spent = none → row[9]? = some (CellValue.str "0"))) := by
  obtain ⟨names, dt, iid, title, author, authorName, st, hA, hC, hI, hT, hAu, hAN, hS, hrow⟩ :=
    transform_issue_ok_shape issue row h
  subst hrow
  refine ⟨?_, ?_, ?_, ?_, ?_, ?_⟩
  · intro ns hns
    rw [hns] at hA
    simp only [Option.getD_some, assigneeNames_of_named, Except.ok.injEq] at hA
    subst hA
    rfl
  · intro ls hls
    simp [reportRowOf, hls]
  · intro hns
    rw [hns] at hA
    simp only [Option.getD_none, assigneeNames, Except.ok.injEq] at hA
    subst hA
    rfl
  · intro hls
    simp only [reportRowOf, hls, Option.getD_none]
    rfl
  · intro hts
    constructor <;> (simp only [reportRowOf, hts]; rfl)
  · intro ts hts
    constructor
    · intro hte
      simp only [reportRowOf, hts, Option.getD_some, hte]
      rfl
    · intro hsp
      simp only [reportRowOf, hts, Option.getD_some, hsp]
      rfl

theorem transform_issue_joins_witness :
    transform_issue sampleIssue = Except.ok sampleRow ∧
      sampleIssue.assignees = some (["Ana", "Luis"].map (fun n => ⟨some n⟩)) ∧
      sampleRow[5]? = some (CellValue.str "Ana, Luis") ∧
      transform_issue bareIssue = Except.ok bareRow ∧
      bareRow[5]? = some (CellValue.str "") ∧
      bareRow[6]? = some (CellValue.str "") ∧
      bareRow[8]? = some (CellValue.str "0") ∧
      bareRow[9]? = some (CellValue.str "0") :=
  ⟨by rfl, rfl,
    (transform_issue_joins_and_defaults sampleIssue sampleRow (by rfl)).1
      ["Ana", "Luis"] rfl,
    by rfl,
    (transform_issue_joins_and_defaults bareIssue bareRow (by rfl)).2.2.1 rfl,
    (transform_issue_joins_and_defaults bareIssue bareRow (by rfl)).2.2.2.1 rfl,
    ((transform_issue_joins_and_defaults bareIssue bareRow (by rfl)).2.2.2.2.1 rfl).1,
    ((transform_issue_joins_and_defaults bareIssue bareRow (by rfl)).2.2.2.2.1 rfl).2⟩

/-- C5: a record whose required `iid`, `title`, `author` name or `state`
key is absent, or whose `created_at` is absent or unparseable, makes the
transformation fail with an error instead of producing a Report Row. -/
theorem transform_issue_missing_required_fails (issue : RawIssue)
    (h : issue.iid = none ∨ issue.title = none ∨ issue.author = none ∨
        (∃ a, issue.author = some a ∧ a.name = none) ∨ issue.state = none ∨
        issue.created_at = none ∨ issue.created_at = some none) :
    ∃ e, transform_issue issue = Except.error e := by
  cases ht : transform_issue issue with
  | error e => exact ⟨e, rfl⟩
  | ok row =>
    exfalso
    obtain ⟨names, dt, iid, title, author, authorName, st, hA, hC, hI, hT, hAu, hAN, hS, _⟩ :=
      transform_issue_ok_shape issue row ht
    rcases h with h | h | h | ⟨a, ha, han⟩ | h | h | h <;> simp_all

theorem transform_issue_missing_required_witness :
    (noIidIssue.iid = none ∨ noIidIssue.title = none ∨ noIidIssue.author = none ∨
        (∃ a, noIidIssue.author = some a ∧ a.name = none) ∨ noIidIssue.state = none ∨
        noIidIssue.created_at = none ∨ noIidIssue.created_at = some none) ∧
      ∃ e, transform_issue noIidIssue = Except.error e :=
  ⟨Or.inl rfl, transform_issue_missing_required_fails noIidIssue (Or.inl rfl)⟩

/-- C8: for a record whose creation timestamp parsed, column 8 is that
timestamp re-rendered "YYYY-MM-DD HH:MM:SS" from the datetime's own
wall-clock components, with each field zero-padded; the rendering is
independent of the timestamp's encoded offset (no timezone conversion). -/
theorem transform_issue_created_at_rendering (issue : RawIssue) (row : List CellValue)
    (dt : DateTime) (hdt : issue.created_at = some (some dt))
    (h : transform_issue issue = Except.ok row) :
    row[7]? = some (CellValue.str
        (zeroPad 4 dt.year ++ "-" ++ zeroPad 2 dt.month ++ "-" ++ zeroPad 2 dt.day ++
          " " ++ zeroPad 2 dt.hour ++ ":" ++ zeroPad 2 dt.minute ++ ":" ++
          zeroPad 2 dt.second)) ∧
      ∀ off : Int, strftime { dt with offsetMinutes := off } = strftime dt := by
  obtain ⟨names, dt', iid, title, author, authorName, st, hA, hC, hI, hT, hAu, hAN, hS, hrow⟩ :=
    transform_issue_ok_shape issue row h
  rw [hdt] at hC
  obtain rfl : dt = dt' := by simpa using hC
  subst hrow
  exact ⟨rfl, fun off => rfl⟩

theorem transform_issue_created_at_witness :
    sampleIssue.created_at = some (some sampleDT) ∧
      transform_issue sampleIssue = Except.ok sampleRow ∧
      sampleRow[7]? = some (CellValue.str
        (zeroPad 4 sampleDT.year ++ "-" ++ zeroPad 2 sampleDT.month ++ "-" ++
          zeroPad 2 sampleDT.day ++ " " ++ zeroPad 2 sampleDT.hour ++ ":" ++
          zeroPad 2 sampleDT.minute ++ ":" ++ zeroPad 2 sampleDT.second)) :=
  ⟨rfl, by rfl,
    (transform_issue_created_at_rendering sampleIssue sampleRow sampleDT rfl (by rfl)).1⟩

/-- C10: a record with all required fields (and well-formed assignees) but
no `description` key still transforms successfully, with the empty string
in the third column; and whether the transformation succeeds never depends
on the presence of `description`. -/
theorem transform_issue_missing_description_ok (issue : RawIssue)
    (names : List String) (dt : DateTime) (iid : Int)
    (title authorName st : String) (author : Author)
    (hA : assigneeNames (issue.assignees.getD []) = Except.ok names)
    (hC : issue.created_at = some (some dt))
    (hI : issue.iid = some iid) (hT : issue.title = some title)
    (hAu : issue.author = some author) (hAN : author.name = some authorName)
    (hS : issue.state = some st) (hD : issue.description = none) :
    (∃ row, transform_issue issue = Except.ok row ∧
        row[2]? = some (CellValue.str "")) ∧
      ∀ other : RawIssue,
        ((∃ row, transform_issue { other with description := none } = Except.ok row) ↔
          ∃ row, transform_issue other = Except.ok row) := by
  constructor
  · refine ⟨_, transform_issue_ok_of_fields issue names dt iid title authorName st
      author hA hC hI hT hAu hAN hS, ?_⟩
    simp [reportRowOf, hD]
  · intro other
    constructor
    · rintro ⟨row, hrow⟩
      obtain ⟨ns, d, ii, t, au, an, s, h1, h2, h3, h4, h5, h6, h7, _⟩ :=
        transform_issue_ok_shape _ row hrow
      exact ⟨_, transform_issue_ok_of_fields other ns d ii t an s au h1 h2 h3 h4 h5 h6 h7⟩
    · rintro ⟨row, hrow⟩
      obtain ⟨ns, d, ii, t, au, an, s, h1, h2, h3, h4, h5, h6, h7, _⟩ :=
        transform_issue_ok_shape _ row hrow
      exact ⟨_, transform_issue_ok_of_fields { other with description := none }
        ns d ii t an s au h1 h2 h3 h4 h5 h6 h7⟩

theorem transform_issue_missing_description_witness :
    bareIssue.description = none ∧
      ∃ row, transform_issue bareIssue = Except.ok row ∧
        row[2]? = some (CellValue.str "") :=
  ⟨rfl, (transform_issue_missing_description_ok bareIssue [] sampleDT 3 "T" "Bo"
    "closed" ⟨some "Bo"⟩ rfl rfl rfl rfl rfl rfl rfl rfl).1⟩

/- ## Character content of the duration formatter -/

theorem digitChar_isDigit (d : Nat) (hd : d < 10) : (Nat.digitChar d).isDigit = true := by
  interval_cases d <;> rfl

theorem toDigitsCore_digits (fuel : Nat) :
    ∀ (n : Nat) (ds : List Char), (∀ c ∈ ds, c.isDigit = true) →
      ∀ c ∈ Nat.toDigitsCore 10 fuel n ds, c.isDigit = true := by
  induction fuel with
  | zero =>
    intro n ds hds c hc
    simp only [Nat.toDigitsCore] at hc
    exact hds c hc
  | succ fuel ih =>
    intro n ds hds c hc
    simp only [Nat.toDigitsCore] at hc
    have hstep : ∀ x ∈ (Nat.digitChar (n % 10) :: ds), x.isDigit = true := by
      intro x hx
      rcases List.mem_cons.mp hx with rfl | hx
      · exact digitChar_isDigit (n % 10) (Nat.mod_lt _ (by norm_num))
      · exact hds x hx
    by_cases hn : n / 10 = 0
    · rw [if_pos hn] at hc
      exact hstep c hc
    · rw [if_neg hn] at hc
      exact ih (n / 10) _ hstep c hc

theorem repr_all_digits (n : Nat) : ∀ c ∈ (Nat.repr n).data, c.isDigit = true := by
  intro c hc
  exact toDigitsCore_digits (n + 1) n [] (by simp) c hc

theorem not_digit_not_mem_repr (c : Char) (n : Nat) (hc : c.isDigit = false) :
    c ∉ (Nat.repr n).data := fun h => by
  have hd := repr_all_digits n c h
  rw [hc] at hd
  exact Bool.noConfusion hd

theorem mem_data_append_left (c : Char) (a b : String) (h : c ∈ a.data) :
    c ∈ (a ++ b).data := by
  rw [String.data_append]
  exact List.mem_append_left _ h

theorem mem_data_append_right (c : Char) (a b : String) (h : c ∈ b.data) :
    c ∈ (a ++ b).data := by
  rw [String.data_append]
  exact List.mem_append_right _ h

theorem not_mem_data_append (c : Char) (a b : String) (ha : c ∉ a.data)
    (hb : c ∉ b.data) : c ∉ (a ++ b).data := by
  rw [String.data_append]
  intro h
  rcases List.mem_append.mp h with h | h
  · exact ha h
  · exact hb h

/-- C7: the rendered duration contains the character 'h' exactly when the
input is at least 3600 seconds, contains 'm' exactly when it is at least
60 seconds, and renders 0 as "0". -/
theorem format_time_seconds_char_content (s : Nat) :
    ('h' ∈ (format_time_seconds s).data ↔ 3600 ≤ s) ∧
      ('m' ∈ (format_time_seconds s).data ↔ 60 ≤ s) ∧
      format_time_seconds 0 = "0" := by
  by_cases h0 : s = 0
  · subst h0
    exact ⟨iff_of_false (by decide) (by omega), iff_of_false (by decide) (by omega), rfl⟩
  by_cases hh : 0 < s / 3600
  · have heq : format_time_seconds s =
        Nat.repr (s / 3600) ++ "h " ++ Nat.repr (s % 3600 / 60) ++ "m " ++
          Nat.repr (s % 60) ++ "s" := by
      simp [format_time_seconds, h0, hh]
    refine ⟨iff_of_true ?_ (by omega), iff_of_true ?_ (by omega), rfl⟩
    · rw [heq]
      exact mem_data_append_left _ _ _ (mem_data_append_left _ _ _
        (mem_data_append_left _ _ _ (mem_data_append_left _ _ _
          (mem_data_append_right _ _ _ (by decide)))))
    · rw [heq]
      exact mem_data_append_left _ _ _ (mem_data_append_left _ _ _
        (mem_data_append_right _ _ _ (by decide)))
  by_cases hm : 0 < s % 3600 / 60
  · have heq : format_time_seconds s =
        Nat.repr (s % 3600 / 60) ++ "m " ++ Nat.repr (s % 60) ++ "s" := by
      simp [format_time_seconds, h0, hh, hm]
    refine ⟨iff_of_false ?_ (by omega), iff_of_true ?_ (by omega), rfl⟩
    · rw [heq]
      exact not_mem_data_append _ _ _ (not_mem_data_append _ _ _
        (not_mem_data_append _ _ _ (not_digit_not_mem_repr _ _ (by decide)) (by decide))
        (not_digit_not_mem_repr _ _ (by decide))) (by decide)
    · rw [heq]
      exact mem_data_append_left _ _ _ (mem_data_append_left _ _ _
        (mem_data_append_right _ _ _ (by decide)))
  · have heq : format_time_seconds s = Nat.repr (s % 60) ++ "s" := by
      simp [format_time_seconds, h0, hh, hm]
    refine ⟨iff_of_false ?_ (by omega), iff_of_false ?_ (by omega), rfl⟩
    · rw [heq]
      exact not_mem_data_append _ _ _ (not_digit_not_mem_repr _ _ (by decide)) (by decide)
    · rw [heq]
      exact not_mem_data_append _ _ _ (not_digit_not_mem_repr _ _ (by decide)) (by decide)

/- ## Column widths -/

theorem foldl_nat_max_spec (l : List Nat) (a : Nat) :
    (∀ x ∈ l, x ≤ l.foldl Nat.max a) ∧
      (l.foldl Nat.max a = a ∨ l.foldl Nat.max a ∈ l) ∧
      a ≤ l.foldl Nat.max a := by
  induction l generalizing a with
  | nil => simp
  | cons x t ih =>
    obtain ⟨h1, h2, h3⟩ := ih (Nat.max a x)
    rw [List.foldl_cons]
    refine ⟨?_, ?_, le_trans (Nat.le_max_left a x) h3⟩
    · intro y hy
      rcases List.mem_cons.mp hy with rfl | hy
      · exact le_trans (Nat.le_max_right a y) h3
      · exact h1 y hy
    · rcases h2 with h2 | h2
      · rcases Nat.le_total x a with hxa | hxa
        · left
          rw [h2]
          exact Nat.max_eq_left hxa
        · right
          have hax : a.max x = x := Nat.max_eq_right hxa
          rw [h2, hax]
          exact List.mem_cons_self x t
      · right
        exact List.mem_cons_of_mem _ h2

theorem maxLen_spec (cells : List String) :
    (∀ c ∈ cells, c.length ≤ cells.foldl (fun m t => Nat.max m t.length) 0) ∧
      (cells ≠ [] →
        ∃ c ∈ cells, c.length = cells.foldl (fun m t => Nat.max m t.length) 0) := by
  have hmap : cells.foldl (fun m t => Nat.max m t.length) 0 =
      (cells.map String.length).foldl Nat.max 0 := by
    rw [List.foldl_map]
  obtain ⟨h1, h2, -⟩ := foldl_nat_max_spec (cells.map String.length) 0
  constructor
  · intro c hc
    rw [hmap]
    exact h1 _ (List.mem_map_of_mem _ hc)
  · intro hne
    rcases h2 with h2 | h2
    · cases cells with
      | nil => exact absurd rfl hne
      | cons c t =>
        refine ⟨c, List.mem_cons_self c t, ?_⟩
        have hle := h1 c.length (List.mem_map_of_mem _ (List.mem_cons_self c t))
        rw [h2] at hle
        rw [hmap, h2]
        omega
    · rcases List.mem_map.mp h2 with ⟨c, hc, hlen⟩
      exact ⟨c, hc, by rw [hmap]; exact hlen⟩

/-- C9: every produced document has one width per column, and each
column's width is the maximum textual length over that column's header
label and all its rendered data values, plus 2, capped at 50. -/
theorem export_to_excel_column_widths (issues : List RawIssue) (s : Sheet)
    (h : export_to_excel issues = Except.ok s) :
    s.widths.length = REPORT_HEADERS.length ∧
      ∀ j : Nat, j < REPORT_HEADERS.length →
        ∃ M, (∀ c ∈ columnCells (REPORT_HEADERS.getD j "") s.rows j, c.length ≤ M) ∧
          (∃ c ∈ columnCells (REPORT_HEADERS.getD j "") s.rows j, c.length = M) ∧
          s.widths[j]? = some (Nat.min (M + 2) 50) := by
  cases ht : transform_all issues with
  | error e =>
    rw [export_to_excel.eq_def, ht] at h
    exact Except.noConfusion h
  | ok rows =>
    rw [export_to_excel.eq_def, ht] at h
    obtain rfl := (Except.ok.injEq _ _).mp h |>.symm
    constructor
    · simp
    · intro j hj
      refine ⟨(columnCells (REPORT_HEADERS.getD j "") rows j).foldl
        (fun m t => Nat.max m t.length) 0, ?_, ?_, ?_⟩
      · exact (maxLen_spec _).1
      · exact (maxLen_spec _).2 (by simp [columnCells])
      · simp only [List.getElem?_map, List.getElem?_range, hj, if_pos, Option.map_some]
        rfl

theorem export_to_excel_column_widths_witness :
    export_to_excel [] = Except.ok emptySheet ∧
      emptySheet.widths.length = REPORT_HEADERS.length :=
  ⟨by rfl, (export_to_excel_column_widths [] emptySheet (by rfl)).1⟩

end GitlabIssuesExport
